import Mathlib

/-!
Verification of the 21vek contact-recorder mobile client.

Shallow embedding of the parts of the repository the properties below speak
about: the debug logger ring buffer (`src/src/utils/Logger.ts`), the local
storage wrapper (`src/src/services/StorageService.ts`), the audio capture
adapter (`src/src/services/AudioService.ts`), the stored-token API client
(`src/src/services/ApiService.ts`), and the upload-with-retry API client
(`src/unnamed/part_003`).

External effects (clock, network, the platform file/audio facilities, the
JSON parser applied to server response bodies) are modelled as explicit
inputs; thrown JavaScript `Error` values are modelled by their message
strings carried in `Except.error`.
-/

/-- Emptiness of a string (JavaScript falsiness of a string value),
expressed over the string's character list so that it evaluates by kernel
reduction on literals. -/
def strEmpty (s : String) : Bool := s.data.isEmpty

/-- JavaScript `s.startsWith(pre)`, expressed over the strings' character
lists so that it evaluates by kernel reduction on literals. -/
def strStartsWith (s pre : String) : Bool := pre.data.isPrefixOf s.data

lemma strEmpty_eq_true_iff (s : String) : strEmpty s = true ↔ s = "" := by
  constructor
  · intro h
    apply String.ext
    simpa [strEmpty, List.isEmpty_iff] using h
  · intro h; subst h; rfl

namespace Logger

/-- Severity levels of `LogEntry.level` in `src/src/utils/Logger.ts`. -/
inductive LogLevel
  | info
  | warn
  | error
deriving DecidableEq, Repr

/-- A `LogEntry` from `src/src/utils/Logger.ts`. The `data` field holds the
already-serialized payload (`JSON.stringify(data)` when the argument was
truthy, `undefined` — here `none` — otherwise). The timestamp string comes
from the clock and is taken as an input. -/
structure LogEntry where
  timestamp : String
  level : LogLevel
  message : String
  data : Option String
deriving DecidableEq, Repr

/-- The `maxLogs` bound of the `Logger` class. -/
def maxLogs : Nat := 100

/-- The private `addLog` method: push the new entry, then if the buffer
exceeds `maxLogs`, keep only the last `maxLogs` entries
(`this.logs = this.logs.slice(-this.maxLogs)`). -/
def addLog (logs : List LogEntry) (level : LogLevel) (timestamp message : String)
    (data : Option String) : List LogEntry :=
  let pushed := logs ++ [⟨timestamp, level, message, data⟩]
  if maxLogs < pushed.length then pushed.drop (pushed.length - maxLogs) else pushed

/-- The method called `info` on the `Logger` class. -/
def infoLog (logs : List LogEntry) (timestamp message : String) (data : Option String) :
    List LogEntry :=
  addLog logs .info timestamp message data

/-- The method called `warn` on the `Logger` class. -/
def warnLog (logs : List LogEntry) (timestamp message : String) (data : Option String) :
    List LogEntry :=
  addLog logs .warn timestamp message data

/-- The method called `error` on the `Logger` class. -/
def errorLog (logs : List LogEntry) (timestamp message : String) (data : Option String) :
    List LogEntry :=
  addLog logs .error timestamp message data

/-- The `clearLogs` method: `this.logs = []`. -/
def clearLogs (_logs : List LogEntry) : List LogEntry := []

/-- The `getLogs` method returns a copy of the buffer (`[...this.logs]`). -/
def getLogs (logs : List LogEntry) : List LogEntry := logs

/-- One public mutating call on the `Logger` singleton. -/
inductive LogOp
  | opInfo (timestamp message : String) (data : Option String)
  | opWarn (timestamp message : String) (data : Option String)
  | opError (timestamp message : String) (data : Option String)
  | opClear
deriving Repr

/-- Apply one public call to the buffer. -/
def applyLogOp (logs : List LogEntry) : LogOp → List LogEntry
  | .opInfo ts m d => infoLog logs ts m d
  | .opWarn ts m d => warnLog logs ts m d
  | .opError ts m d => errorLog logs ts m d
  | .opClear => clearLogs logs

/-- Run a sequence of public calls starting from the initial empty buffer
(`private logs: LogEntry[] = []`). -/
def runLogOps (ops : List LogOp) : List LogEntry :=
  ops.foldl applyLogOp []

lemma addLog_length_le (logs : List LogEntry) (level : LogLevel) (ts m : String)
    (d : Option String) (h : logs.length ≤ maxLogs) :
    (addLog logs level ts m d).length ≤ maxLogs := by
  unfold addLog
  by_cases hlen : maxLogs < (logs ++ [(⟨ts, level, m, d⟩ : LogEntry)]).length
  · simp only [hlen, if_true, List.length_drop]
    omega
  · simp only [hlen, if_false]
    simp only [List.length_append, List.length_singleton] at hlen ⊢
    omega

lemma applyLogOp_length_le (logs : List LogEntry) (op : LogOp)
    (h : logs.length ≤ maxLogs) :
    (applyLogOp logs op).length ≤ maxLogs := by
  cases op with
  | opInfo ts m d => exact addLog_length_le logs .info ts m d h
  | opWarn ts m d => exact addLog_length_le logs .warn ts m d h
  | opError ts m d => exact addLog_length_le logs .error ts m d h
  | opClear => simp [applyLogOp, clearLogs]

lemma foldl_applyLogOp_length_le (ops : List LogOp) :
    ∀ logs : List LogEntry, logs.length ≤ maxLogs →
      (ops.foldl applyLogOp logs).length ≤ maxLogs := by
  induction ops with
  | nil => intro logs h; simpa using h
  | cons op rest ih =>
      intro logs h
      simpa using ih (applyLogOp logs op) (applyLogOp_length_le logs op h)

lemma addLog_full_evicts (logs : List LogEntry) (level : LogLevel) (ts m : String)
    (d : Option String) (h : logs.length = maxLogs) :
    addLog logs level ts m d = logs.drop 1 ++ [⟨ts, level, m, d⟩] := by
  unfold addLog
  have hlen : maxLogs < (logs ++ [(⟨ts, level, m, d⟩ : LogEntry)]).length := by
    simp [h]
  rw [if_pos hlen]
  have h1 : (logs ++ [(⟨ts, level, m, d⟩ : LogEntry)]).length - maxLogs = 1 := by
    simp [h]
  have h2 : 1 ≤ logs.length := by
    rw [h]; exact Nat.one_le_iff_ne_zero.mpr (by simp [maxLogs])
  rw [h1, List.drop_append_of_le_length h2]

end Logger

namespace Storage

/-- The `Recording` record of `src/unnamed/part_002` (the app's `types`
module), as it lives in `AsyncStorage` after a `JSON.stringify`/`JSON.parse`
round trip: `Date`-valued fields are represented by their ISO-8601
serializations (which is how `JSON.stringify` emits a `Date`), optional
fields by `Option`. -/
structure Recording where
  id : String
  userId : String
  locationId : String
  startTime : String
  endTime : Option String
  audioFilePath : String
  duration : Nat
  serverId : Option Int
  synced : Option Bool
deriving DecidableEq, Repr

/-- The `AsyncStorage` value stored under `StorageService.RECORDINGS_KEY`
(`'recordings'`): `none` when the key is absent, otherwise the parsed list.
`JSON.parse ∘ JSON.stringify` is the identity on lists of `Recording`
records whose fields have the JSON-representable types above, so the store
holds the typed list directly. -/
abbrev RecStore := Option (List Recording)

/-- `StorageService.getRecordings`: parse the stored JSON, or return `[]`
when the key is absent. -/
def getRecordings (store : RecStore) : List Recording :=
  store.getD []

/-- `StorageService.saveRecording`: read the current list, append the new
recording (`[...recordings, recording]`), and write it back. -/
def saveRecording (store : RecStore) (recording : Recording) : RecStore :=
  some (getRecordings store ++ [recording])

/-- `StorageService.removeRecording`: read the current list, keep the
entries with `r.id !== recordingId`, and write the result back. -/
def removeRecording (store : RecStore) (recordingId : String) : RecStore :=
  some ((getRecordings store).filter (fun r => r.id != recordingId))

end Storage

namespace AudioSvc

/-- The mutable state of the `AudioService` class: the `recording` handle
(the platform `Audio.Recording` object, abstracted by an opaque identifier)
and the `isRecording` flag. -/
structure State where
  recording : Option String
  isRecording : Bool
deriving DecidableEq, Repr

/-- The initial state of the class (`recording = null`, `isRecording = false`). -/
def initState : State := ⟨none, false⟩

/-- The external events `startRecording` can observe once past the busy
check: the permission request resolving to false (its own try/catch already
folds a throw into `false`), `Audio.setAudioModeAsync` throwing,
`Audio.Recording.createAsync` throwing, or a recording handle being
created. -/
inductive StartOutcome
  | permissionDenied
  | audioModeThrow (msg : String)
  | createThrow (msg : String)
  | created (handle : String)
deriving DecidableEq, Repr

/-- `AudioService.startRecording`: if a session is already active, log and
return `null`; otherwise request permissions (a refusal throws, caught by
the outer catch, which returns `null`), configure the audio mode, create the
recording, set `this.recording` and `this.isRecording = true`, and return
the placeholder string `'recording'`. Any throw is caught and `null` is
returned with the state untouched. -/
def startRecording (st : State) (env : StartOutcome) : State × Option String :=
  if st.isRecording then
    (st, none)
  else
    match env with
    | .permissionDenied => (st, none)
    | .audioModeThrow _ => (st, none)
    | .createThrow _ => (st, none)
    | .created handle => (⟨some handle, true⟩, some "recording")

/-- The external events `stopRecording` can observe once past its guard:
`stopAndUnloadAsync` throwing, or stopping cleanly with `getURI()` returning
the file URI (possibly `null`). -/
inductive StopOutcome
  | stopThrow (msg : String)
  | stopped (uri : Option String)
deriving DecidableEq, Repr

/-- `AudioService.stopRecording`: if no session is active, return `null`;
on a throw from `stopAndUnloadAsync` the catch returns `null` (leaving the
flags as they were); otherwise clear `recording`/`isRecording` and return
the URI. -/
def stopRecording (st : State) (env : StopOutcome) : State × Option String :=
  if !st.isRecording || st.recording.isNone then
    (st, none)
  else
    match env with
    | .stopThrow _ => (st, none)
    | .stopped uri => (⟨none, false⟩, uri)

/-- The JSON-parse outcome of a response body string: either the body is a
string that `JSON.parse` accepts, or one it rejects. (The parsed value is
only logged by `uploadRecording`, never returned, so it is not carried.) -/
inductive Body
  | json (raw : String)
  | notJson (raw : String)
deriving DecidableEq, Repr

/-- The raw body string. -/
def Body.raw : Body → String
  | .json raw => raw
  | .notJson raw => raw

/-- Outcome of the `FileSystem.uploadAsync` call inside
`AudioService.uploadRecording`: a thrown error or an HTTP response with a
status and a body. -/
inductive UploadCall
  | throwErr (msg : String)
  | response (status : Nat) (body : Body)
deriving DecidableEq, Repr

/-- The `{ success, message }` result value of `AudioService.uploadRecording`. -/
structure UploadResult where
  success : Bool
  message : String
deriving DecidableEq, Repr

/-- `AudioService.uploadRecording` (`src/src/services/AudioService.ts`,
lines 183-272): issue the multipart upload; on status 200 or 201 try to
parse the body as JSON and report success whether or not the parse works;
on any other status report a server-error failure; a thrown error is caught
and reported as a failure mentioning the local fallback. -/
def uploadRecording (call : UploadCall) : UploadResult :=
  match call with
  | .throwErr msg =>
      ⟨false, "Проблема с загрузкой: " ++ msg ++ ". Запись сохранена локально."⟩
  | .response status body =>
      if status == 200 || status == 201 then
        match body with
        | .json _ => ⟨true, "Запись успешно загружена на сервер"⟩
        | .notJson _ => ⟨true, "Запись успешно загружена на сервер"⟩
      else
        ⟨false, "Ошибка сервера: " ++ toString status ++ ". " ++
          (if strEmpty body.raw then "Неизвестная ошибка" else body.raw)⟩

end AudioSvc

namespace StoredApi

/-- The token state of the `ApiService` class in
`src/src/services/ApiService.ts`: the in-memory `authToken` field and its
`AsyncStorage` mirror under the `'authToken'` key. -/
structure State where
  authToken : Option String
  storedToken : Option String
deriving DecidableEq, Repr

/-- `ApiService.setAuthToken`: set the field and persist it. -/
def setAuthToken (_st : State) (token : String) : State :=
  ⟨some token, some token⟩

/-- `ApiService.clearAuthToken`: null the field and remove the stored key. -/
def clearAuthToken (_st : State) : State :=
  ⟨none, none⟩

/-- The JSON value `makeRequest` hands back for a login call (typed `any`
in the source; the fields `login` looks at). `token = some ""` models a
present-but-empty token string, which is falsy in JavaScript. -/
structure LoginResp where
  success : Bool
  token : Option String
  message : Option String
deriving DecidableEq, Repr

/-- JavaScript truthiness of an optional string: `null`/`undefined` and the
empty string are falsy. -/
def optTruthy (s : Option String) : Bool :=
  match s with
  | none => false
  | some s => !strEmpty s

/-- `ApiService.login` (`src/src/services/ApiService.ts`, lines 120-138):
call `makeRequest` (which may throw — modelled by `Except.error` carrying
the error message); on `response.success && response.token` store the
token; the surrounding try/catch converts any throw into a returned
`{ success: false, message }` object, so the method itself never throws.
The `username`/`password` arguments feed the request body and are carried
for fidelity only. -/
def login (st : State) (_username _password : String)
    (resp : Except String LoginResp) : State × LoginResp :=
  match resp with
  | .error msg => (st, ⟨false, none, some msg⟩)
  | .ok r =>
      (if r.success && optTruthy r.token then setAuthToken st (r.token.getD "") else st, r)

end StoredApi

namespace Api

/-- The token field of the `ApiService` class in `src/unnamed/part_003`
(`private token: string | null`). -/
structure State where
  token : Option String
deriving DecidableEq, Repr

/-- JavaScript truthiness of `this.token`: `null` and `''` are falsy. -/
def tokenTruthy (s : Option String) : Bool :=
  match s with
  | none => false
  | some s => !strEmpty s

/-- The `LoginResponse` of `src/unnamed/part_003`: `success`, `message`,
`user`, `token` (the `user` payload is irrelevant to token handling and is
not carried). -/
structure LoginResponse where
  success : Bool
  message : String
  token : String
deriving DecidableEq, Repr

/-- `ApiService.login` of `src/unnamed/part_003`: issue the request (which
may throw), and on `response.success && response.token` call
`this.setToken(response.token)`. The response or the thrown error
propagates to the caller unchanged. -/
def login (st : State) (_username _password : String)
    (resp : Except String LoginResponse) : State × Except String LoginResponse :=
  match resp with
  | .error msg => (st, .error msg)
  | .ok r =>
      (if r.success && !strEmpty r.token then ⟨some r.token⟩ else st, .ok r)

/-- The `{ success, message, recording? }` value `uploadAudio` returns (the
parsed server JSON on the success path, or the authorization-failure object
built in the auth preamble). -/
structure UploadResponse where
  success : Bool
  message : String
deriving DecidableEq, Repr

/-- The JSON-parse outcome of an upload response body: a string
`JSON.parse` accepts (carrying the parsed result) or one it rejects. -/
inductive Body
  | json (raw : String) (parsed : UploadResponse)
  | notJson (raw : String)
deriving DecidableEq, Repr

/-- The raw body string. -/
def Body.raw : Body → String
  | .json raw _ => raw
  | .notJson raw => raw

/-- Outcome of the `FileSystem.uploadAsync` call of one attempt: a thrown
error, or a response with an HTTP status and a body. -/
inductive UploadCall
  | throwErr (msg : String)
  | response (status : Nat) (body : Body)
deriving DecidableEq, Repr

/-- The external events of one iteration of the retry loop: the `/health`
probe fetch throwing, or resolving with an `ok` flag and status, followed
(when `ok`) by the upload call itself. -/
inductive AttemptOutcome
  | healthThrow (msg : String)
  | health (ok : Bool) (healthStatus : Nat) (call : UploadCall)
deriving DecidableEq, Repr

/-- The metadata argument of `uploadAudio`. -/
structure RecordingData where
  uri : String
  mimeType : String
  fileName : String
  durationSeconds : Nat
  locationId : Nat
  recordingDate : String
deriving DecidableEq, Repr

/-- The body of one iteration of the retry loop of `ApiService.uploadAudio`
(`src/unnamed/part_003`, lines 501-615): check the file URI
(`!uri || !uri.startsWith('file://')` throws), run the `/health` probe
(a non-`ok` probe throws), run `FileSystem.uploadAsync`; a status in
`[200, 300)` parses the body — returning the parsed JSON, or throwing a
parse error when the body is not JSON — and any other status throws an
`HTTP <status>` error. `Except.error` is the thrown error of the iteration,
caught by the loop's catch block. -/
def attemptOnce (rd : RecordingData) (out : AttemptOutcome) :
    Except String UploadResponse :=
  if strEmpty rd.uri || !strStartsWith rd.uri "file://" then
    .error ("Некорректный URI файла: " ++ rd.uri)
  else
    match out with
    | .healthThrow msg => .error msg
    | .health ok healthStatus call =>
        if !ok then
          .error ("Server health check failed: " ++ toString healthStatus)
        else
          match call with
          | .throwErr msg => .error msg
          | .response status body =>
              if 200 ≤ status && status < 300 then
                match body with
                | .json _ parsed => .ok parsed
                | .notJson _ => .error "Ошибка парсинга ответа сервера"
              else
                .error ("HTTP " ++ toString status ++ ": " ++ body.raw)

/-- The `maxRetries` constant of `uploadAudio`. -/
def maxRetries : Nat := 3

/-- The attempt counter values of the loop
`for (attempt = 1; attempt <= maxRetries; attempt++)`. -/
def retryAttempts : List Nat := List.range' 1 maxRetries

/-- What the retry loop produced: the returned-or-thrown result, how many
iterations ran, and the backoff delays awaited (in milliseconds, in order). -/
structure LoopResult where
  outcome : Except String UploadResponse
  attemptsMade : Nat
  delays : List Nat
deriving Repr

/-- The retry loop of `uploadAudio`: iterate the remaining attempt indices;
a successful iteration returns its result immediately; a failed iteration
records `lastError` and, when `attempt < maxRetries`, awaits
`attempt * 2000` ms before continuing; when the indices are exhausted the
loop falls through to `throw lastError`. -/
def uploadLoopGo (rd : RecordingData) (env : Nat → AttemptOutcome) :
    List Nat → Option String → LoopResult
  | [], lastError => ⟨.error (lastError.getD "undefined"), 0, []⟩
  | attempt :: rest, _ =>
      match attemptOnce rd (env attempt) with
      | .ok result => ⟨.ok result, 1, []⟩
      | .error e =>
          let r := uploadLoopGo rd env rest (some e)
          if attempt < maxRetries then
            ⟨r.outcome, r.attemptsMade + 1, attempt * 2000 :: r.delays⟩
          else
            ⟨r.outcome, r.attemptsMade + 1, r.delays⟩

/-- The whole retry loop, from `attempt = 1` with `lastError` unset. -/
def uploadLoop (rd : RecordingData) (env : Nat → AttemptOutcome) : LoopResult :=
  uploadLoopGo rd env retryAttempts none

/-- Observable counters of one `uploadAudio` call: implicit login calls
made, retry-loop iterations run, and backoff delays awaited. -/
structure UploadTrace where
  loginCalls : Nat
  attemptsMade : Nat
  delays : List Nat
deriving DecidableEq, Repr

/-- `ApiService.uploadAudio` (`src/unnamed/part_003`, lines 463-647): when
`this.token` is falsy, first call `this.login('admin', 'admin123')`; a
thrown login error, or a login response with `success` false (which the
preamble converts into a throw of its own), is caught and turned into a
returned `{ success: false, message: 'Ошибка авторизации: ...' }` object
with no upload attempt made. Otherwise run the retry loop; its result is
returned, or its `throw lastError` propagates (`Except.error`). -/
def uploadAudio (st : State) (rd : RecordingData)
    (loginResp : Except String LoginResponse) (env : Nat → AttemptOutcome) :
    State × Except String UploadResponse × UploadTrace :=
  if !tokenTruthy st.token then
    match login st "admin" "admin123" loginResp with
    | (st1, .error msg) =>
        (st1, .ok ⟨false, "Ошибка авторизации: " ++ msg⟩, ⟨1, 0, []⟩)
    | (st1, .ok r) =>
        if !r.success then
          (st1, .ok ⟨false,
            "Ошибка авторизации: Не удалось авторизоваться для загрузки файла"⟩,
            ⟨1, 0, []⟩)
        else
          let lr := uploadLoop rd env
          (st1, lr.outcome, ⟨1, lr.attemptsMade, lr.delays⟩)
  else
    let lr := uploadLoop rd env
    (st, lr.outcome, ⟨0, lr.attemptsMade, lr.delays⟩)

/-- Whether the auth preamble lets the upload proceed to the retry loop:
either a truthy token is already held, or the implicit login returns a
response with `success` true. -/
def authPasses (st : State) (loginResp : Except String LoginResponse) : Bool :=
  tokenTruthy st.token ||
    (match loginResp with
     | .ok r => r.success
     | .error _ => false)

/-- Whether an `Except` value is the thrown (`error`) case. -/
def isThrown (x : Except String UploadResponse) : Bool :=
  match x with
  | .error _ => true
  | .ok _ => false

lemma retryAttempts_eq : retryAttempts = [1, 2, 3] := rfl

lemma isThrown_iff (x : Except String UploadResponse) :
    isThrown x = true ↔ ∃ e, x = .error e := by
  cases x <;> simp [isThrown]

lemma uploadLoop_ok_first (rd : RecordingData) (env : Nat → AttemptOutcome)
    (r : UploadResponse) (h1 : attemptOnce rd (env 1) = .ok r) :
    uploadLoop rd env = ⟨.ok r, 1, []⟩ := by
  simp [uploadLoop, retryAttempts_eq, uploadLoopGo, h1]

lemma uploadLoop_ok_second (rd : RecordingData) (env : Nat → AttemptOutcome)
    (e1 : String) (r : UploadResponse)
    (h1 : attemptOnce rd (env 1) = .error e1)
    (h2 : attemptOnce rd (env 2) = .ok r) :
    uploadLoop rd env = ⟨.ok r, 2, [2000]⟩ := by
  simp [uploadLoop, retryAttempts_eq, uploadLoopGo, h1, h2, maxRetries]

lemma uploadLoop_ok_third (rd : RecordingData) (env : Nat → AttemptOutcome)
    (e1 e2 : String) (r : UploadResponse)
    (h1 : attemptOnce rd (env 1) = .error e1)
    (h2 : attemptOnce rd (env 2) = .error e2)
    (h3 : attemptOnce rd (env 3) = .ok r) :
    uploadLoop rd env = ⟨.ok r, 3, [2000, 4000]⟩ := by
  simp [uploadLoop, retryAttempts_eq, uploadLoopGo, h1, h2, h3, maxRetries]

lemma uploadLoop_all_fail (rd : RecordingData) (env : Nat → AttemptOutcome)
    (e1 e2 e3 : String)
    (h1 : attemptOnce rd (env 1) = .error e1)
    (h2 : attemptOnce rd (env 2) = .error e2)
    (h3 : attemptOnce rd (env 3) = .error e3) :
    uploadLoop rd env = ⟨.error e3, 3, [2000, 4000]⟩ := by
  simp [uploadLoop, retryAttempts_eq, uploadLoopGo, h1, h2, h3, maxRetries]

lemma uploadAudio_loop_eq (st : State) (rd : RecordingData)
    (loginResp : Except String LoginResponse) (env : Nat → AttemptOutcome)
    (hauth : authPasses st loginResp = true) :
    (uploadAudio st rd loginResp env).2.1 = (uploadLoop rd env).outcome ∧
    (uploadAudio st rd loginResp env).2.2.attemptsMade = (uploadLoop rd env).attemptsMade ∧
    (uploadAudio st rd loginResp env).2.2.delays = (uploadLoop rd env).delays := by
  by_cases ht : tokenTruthy st.token
  · simp [uploadAudio, ht]
  · simp only [authPasses, ht, Bool.false_or] at hauth
    cases loginResp with
    | error msg => simp at hauth
    | ok r =>
        have hs : r.success = true := by simpa using hauth
        simp only [uploadAudio, ht, Bool.not_false, if_true, login]
        simp [hs]

end Api

/-- Concrete log entry used to build a full logger buffer. -/
def seedEntry : Logger.LogEntry := ⟨"2025-06-10T00:00:00.000Z", .info, "seed", none⟩

/-- A buffer already holding `maxLogs` entries. -/
def fullBuffer : List Logger.LogEntry := List.replicate 100 seedEntry

/-- C6: for every sequence of `Logger.info`/`warn`/`error`/`clearLogs` calls
starting from the empty buffer, the buffer observed via `getLogs` never
holds more than 100 entries; and appending an entry to a buffer of exactly
100 evicts the oldest entry, keeping the 100 most recent in append order. -/
theorem logger_capacity_and_eviction (ops : List Logger.LogOp) :
    (Logger.getLogs (Logger.runLogOps ops)).length ≤ 100 ∧
    (∀ (logs : List Logger.LogEntry) (level : Logger.LogLevel) (ts m : String)
        (d : Option String), logs.length = 100 →
      Logger.addLog logs level ts m d = logs.drop 1 ++ [⟨ts, level, m, d⟩]) := by
  constructor
  · exact Logger.foldl_applyLogOp_length_le ops [] (by simp [Logger.maxLogs])
  · intro logs level ts m d h
    exact Logger.addLog_full_evicts logs level ts m d h

/-- Witness for C6: appending to a concrete buffer of 100 entries drops the
oldest entry and appends the new one. -/
theorem logger_capacity_and_eviction_witness :
    Logger.addLog fullBuffer .warn "2025-06-10T00:01:00.000Z" "new entry" none =
      fullBuffer.drop 1 ++ [⟨"2025-06-10T00:01:00.000Z", .warn, "new entry", none⟩] :=
  (logger_capacity_and_eviction []).2 fullBuffer .warn
    "2025-06-10T00:01:00.000Z" "new entry" none (by simp [fullBuffer])

/-- C7: calling `startRecording` while a session is active returns `null`
and leaves both the `recording` handle and the `isRecording` flag untouched,
so a second concurrent session is never created. -/
theorem startRecording_busy_noop (st : AudioSvc.State) (env : AudioSvc.StartOutcome)
    (h : st.isRecording = true) :
    AudioSvc.startRecording st env = (st, none) := by
  simp [AudioSvc.startRecording, h]

/-- Witness for C7: a concrete busy state is unchanged even when the
platform would have created a second handle. -/
theorem startRecording_busy_noop_witness :
    AudioSvc.startRecording ⟨some "handle1", true⟩ (.created "handle2") =
      (⟨some "handle1", true⟩, none) :=
  startRecording_busy_noop ⟨some "handle1", true⟩ (.created "handle2") rfl

/-- C8: saving a `Recording` with `StorageService.saveRecording` and reading
the stored list back with `StorageService.getRecordings` yields a last
element that is field-for-field equal to the saved record — identifier,
owner, location, both timestamps (as their ISO-string serializations), the
audio file path, the duration, the server id, and the `synced` flag. -/
theorem saveRecording_roundtrip_last (store : Storage.RecStore) (r : Storage.Recording) :
    ∃ rb, (Storage.getRecordings (Storage.saveRecording store r)).getLast? = some rb ∧
      rb.id = r.id ∧ rb.userId = r.userId ∧ rb.locationId = r.locationId ∧
      rb.startTime = r.startTime ∧ rb.endTime = r.endTime ∧
      rb.audioFilePath = r.audioFilePath ∧ rb.duration = r.duration ∧
      rb.serverId = r.serverId ∧ rb.synced = r.synced := by
  refine ⟨r, ?_, rfl, rfl, rfl, rfl, rfl, rfl, rfl, rfl, rfl⟩
  simp [Storage.getRecordings, Storage.saveRecording]

/-- C10: `StorageService.removeRecording` leaves the stored list equal to
the original with exactly the entries whose id matches removed, the
relative order of the remaining entries preserved (the result is a sublist
of the original); an id matching no entry leaves the list unchanged. -/
theorem removeRecording_filter_spec (store : Storage.RecStore) (recordingId : String) :
    Storage.getRecordings (Storage.removeRecording store recordingId) =
      (Storage.getRecordings store).filter (fun r => r.id != recordingId) ∧
    List.Sublist (Storage.getRecordings (Storage.removeRecording store recordingId))
      (Storage.getRecordings store) ∧
    ((∀ r ∈ Storage.getRecordings store, r.id ≠ recordingId) →
      Storage.getRecordings (Storage.removeRecording store recordingId) =
        Storage.getRecordings store) := by
  refine ⟨rfl, ?_, ?_⟩
  · exact List.filter_sublist (Storage.getRecordings store)
  · intro h
    show (Storage.getRecordings store).filter (fun r => r.id != recordingId) =
      Storage.getRecordings store
    rw [List.filter_eq_self]
    intro a ha
    simpa using h a ha

/-- Concrete recording used in storage witnesses. -/
def recSample : Storage.Recording :=
  ⟨"rec-1", "user-1", "loc-1", "2025-06-10T09:00:00.000Z",
    some "2025-06-10T09:05:00.000Z", "file:///docs/recordings/rec-1.m4a",
    300000, none, some true⟩

/-- Witness for C10: removing an id that matches nothing in a concrete
one-element store leaves the stored list unchanged. -/
theorem removeRecording_filter_spec_witness :
    Storage.getRecordings (Storage.removeRecording (some [recSample]) "rec-2") =
      Storage.getRecordings (some [recSample]) :=
  (removeRecording_filter_spec (some [recSample]) "rec-2").2.2 (by decide)

/-- C9: the stored-token `ApiService.login` never throws — a thrown request
error comes back as a returned `{ success: false, message }` object — and
the held auth token (and its persisted mirror) changes only when the
response has `success` true and a truthy (non-empty) token; on every failed
or erroring login the token state is unchanged. -/
theorem storedApi_login_no_throw_token_stable (st : StoredApi.State) (u p : String)
    (resp : Except String StoredApi.LoginResp) :
    (∀ msg, resp = .error msg →
      StoredApi.login st u p resp = (st, ⟨false, none, some msg⟩)) ∧
    (∀ r, resp = .ok r →
      (StoredApi.login st u p resp).2 = r ∧
      (¬(r.success = true ∧ StoredApi.optTruthy r.token = true) →
        (StoredApi.login st u p resp).1 = st) ∧
      (∀ t, r.success = true → r.token = some t → t ≠ "" →
        (StoredApi.login st u p resp).1 = ⟨some t, some t⟩)) := by
  constructor
  · intro msg h; subst h; rfl
  · intro r h; subst h
    refine ⟨rfl, ?_, ?_⟩
    · intro hneg
      have hb : (r.success && StoredApi.optTruthy r.token) = false := by
        rcases Bool.eq_false_or_eq_true (r.success && StoredApi.optTruthy r.token) with ht | hf
        · exact absurd (by simpa [Bool.and_eq_true] using ht) hneg
        · exact hf
      simp [StoredApi.login, hb]
    · intro t hs htok hne
      have hemp : strEmpty t = false := by
        rcases Bool.eq_false_or_eq_true (strEmpty t) with ht2 | hf2
        · exact absurd ((strEmpty_eq_true_iff t).mp ht2) hne
        · exact hf2
      have hb : (r.success && StoredApi.optTruthy (some t)) = true := by
        simp [hs, StoredApi.optTruthy, hemp]
      simp [StoredApi.login, htok, hb, StoredApi.setAuthToken]

/-- Witness for C9: a concrete erroring login returns a failure object and
leaves the held token untouched. -/
theorem storedApi_login_no_throw_token_stable_witness :
    StoredApi.login ⟨some "old-token", some "old-token"⟩ "admin" "admin123"
        (.error "Network request failed") =
      (⟨some "old-token", some "old-token"⟩,
        ⟨false, none, some "Network request failed"⟩) :=
  (storedApi_login_no_throw_token_stable ⟨some "old-token", some "old-token"⟩
    "admin" "admin123" (.error "Network request failed")).1
    "Network request failed" rfl


/-- Concrete upload metadata with a valid `file://` URI. -/
def rdGood : Api.RecordingData :=
  ⟨"file:///cache/recording-1.m4a", "audio/m4a", "recording-1.m4a", 42, 1,
    "2025-06-10T12:00:00.000Z"⟩

/-- Concrete client state already holding a token. -/
def stTok : Api.State := ⟨some "jwt-token"⟩

/-- An environment in which every attempt's health probe throws. -/
def envNetFail : Nat → Api.AttemptOutcome :=
  fun _ => .healthThrow "Network request failed"

/-- An environment in which attempts 1 and 2 fail with thrown network
errors and attempt 3 succeeds with a parsed JSON body. -/
def envThirdOk : Nat → Api.AttemptOutcome :=
  fun i =>
    if i < 3 then .health true 200 (.throwErr "Network request failed")
    else .health true 200 (.response 200 (.json "server-json" ⟨true, "uploaded"⟩))

/-- Counterexample to C1: with a token held and every attempt failing, the
result of `uploadAudio` is the thrown last error (`throw lastError`,
`src/unnamed/part_003` line 646), not a returned `success = false` object. -/
theorem uploadAudio_retry_exhaustion_throws_cex :
    (Api.uploadAudio stTok rdGood (.error "unused") envNetFail).2.1 =
      Except.error "Network request failed" := by
  have h : ∀ i : Nat, Api.attemptOnce rdGood (envNetFail i) =
      .error "Network request failed" := fun i => rfl
  have hb := Api.uploadAudio_loop_eq stTok rdGood (.error "unused") envNetFail (by rfl)
  rw [hb.1, Api.uploadLoop_all_fail rdGood envNetFail _ _ _ (h 1) (h 2) (h 3)]

/-- C1 amended: after exhausting the retry budget, `uploadAudio` surfaces
the last attempt's error to the caller as a thrown exception; the returned
`success = false` failure object is produced only on the authorization
path. -/
theorem uploadAudio_retry_exhaustion_surfaces_last_error (st : Api.State)
    (rd : Api.RecordingData) (loginResp : Except String Api.LoginResponse)
    (env : Nat → Api.AttemptOutcome) (e1 e2 e3 : String)
    (hauth : Api.authPasses st loginResp = true)
    (h1 : Api.attemptOnce rd (env 1) = .error e1)
    (h2 : Api.attemptOnce rd (env 2) = .error e2)
    (h3 : Api.attemptOnce rd (env 3) = .error e3) :
    (Api.uploadAudio st rd loginResp env).2.1 = Except.error e3 := by
  have hb := Api.uploadAudio_loop_eq st rd loginResp env hauth
  rw [hb.1, Api.uploadLoop_all_fail rd env e1 e2 e3 h1 h2 h3]

/-- Witness for the amended C1 on a concrete failing run. -/
theorem uploadAudio_retry_exhaustion_surfaces_last_error_witness :
    (Api.uploadAudio stTok rdGood (.ok ⟨true, "ok", "jwt"⟩) envNetFail).2.1 =
      Except.error "Network request failed" :=
  uploadAudio_retry_exhaustion_surfaces_last_error stTok rdGood
    (.ok ⟨true, "ok", "jwt"⟩) envNetFail
    "Network request failed" "Network request failed" "Network request failed"
    (by rfl) (by rfl) (by rfl) (by rfl)

/-- C2: when the auth preamble lets the upload proceed, `uploadAudio` runs
exactly 3 attempts and ends in a thrown failure when every attempt fails,
and runs exactly `k` attempts — none after the success — when attempts
before `k` fail and attempt `k` succeeds. -/
theorem uploadAudio_attempt_budget (st : Api.State) (rd : Api.RecordingData)
    (loginResp : Except String Api.LoginResponse) (env : Nat → Api.AttemptOutcome)
    (hauth : Api.authPasses st loginResp = true) :
    ((∀ i, 1 ≤ i → i ≤ 3 → Api.isThrown (Api.attemptOnce rd (env i)) = true) →
      (Api.uploadAudio st rd loginResp env).2.2.attemptsMade = 3 ∧
      Api.isThrown (Api.uploadAudio st rd loginResp env).2.1 = true) ∧
    (∀ k r, 1 ≤ k → k ≤ 3 →
      (∀ i, 1 ≤ i → i < k → Api.isThrown (Api.attemptOnce rd (env i)) = true) →
      Api.attemptOnce rd (env k) = .ok r →
      (Api.uploadAudio st rd loginResp env).2.2.attemptsMade = k ∧
      (Api.uploadAudio st rd loginResp env).2.1 = .ok r) := by
  obtain ⟨ho, ha, hd⟩ := Api.uploadAudio_loop_eq st rd loginResp env hauth
  constructor
  · intro hall
    obtain ⟨e1, h1⟩ := (Api.isThrown_iff _).mp (hall 1 (by omega) (by omega))
    obtain ⟨e2, h2⟩ := (Api.isThrown_iff _).mp (hall 2 (by omega) (by omega))
    obtain ⟨e3, h3⟩ := (Api.isThrown_iff _).mp (hall 3 (by omega) (by omega))
    rw [ha, ho, Api.uploadLoop_all_fail rd env e1 e2 e3 h1 h2 h3]
    exact ⟨rfl, rfl⟩
  · intro k r hk1 hk3 hprev hk
    interval_cases k
    · rw [ha, ho, Api.uploadLoop_ok_first rd env r hk]
      exact ⟨rfl, rfl⟩
    · obtain ⟨e1, h1⟩ := (Api.isThrown_iff _).mp (hprev 1 (by omega) (by omega))
      rw [ha, ho, Api.uploadLoop_ok_second rd env e1 r h1 hk]
      exact ⟨rfl, rfl⟩
    · obtain ⟨e1, h1⟩ := (Api.isThrown_iff _).mp (hprev 1 (by omega) (by omega))
      obtain ⟨e2, h2⟩ := (Api.isThrown_iff _).mp (hprev 2 (by omega) (by omega))
      rw [ha, ho, Api.uploadLoop_ok_third rd env e1 e2 r h1 h2 hk]
      exact ⟨rfl, rfl⟩

/-- Witness for C2: a concrete all-failing run makes exactly 3 attempts and
ends in a thrown failure. -/
theorem uploadAudio_attempt_budget_witness :
    (Api.uploadAudio stTok rdGood (.error "unused") envNetFail).2.2.attemptsMade = 3 ∧
    Api.isThrown (Api.uploadAudio stTok rdGood (.error "unused") envNetFail).2.1 = true :=
  (uploadAudio_attempt_budget stTok rdGood (.error "unused") envNetFail rfl).1
    (fun _ _ _ => rfl)

/-- C3: when attempts 1 and 2 fail and attempt 3 succeeds, `uploadAudio`
returns the success result, having awaited exactly the two backoff delays
`1 × 2000` ms and `2 × 2000` ms (one after each failed attempt, in order)
and none after the final attempt. -/
theorem uploadAudio_backoff_schedule (st : Api.State) (rd : Api.RecordingData)
    (loginResp : Except String Api.LoginResponse) (env : Nat → Api.AttemptOutcome)
    (e1 e2 : String) (r : Api.UploadResponse)
    (hauth : Api.authPasses st loginResp = true)
    (h1 : Api.attemptOnce rd (env 1) = .error e1)
    (h2 : Api.attemptOnce rd (env 2) = .error e2)
    (h3 : Api.attemptOnce rd (env 3) = .ok r) :
    (Api.uploadAudio st rd loginResp env).2.1 = .ok r ∧
    (Api.uploadAudio st rd loginResp env).2.2.delays = [1 * 2000, 2 * 2000] ∧
    (Api.uploadAudio st rd loginResp env).2.2.attemptsMade = 3 := by
  obtain ⟨ho, ha, hd⟩ := Api.uploadAudio_loop_eq st rd loginResp env hauth
  rw [ho, hd, ha, Api.uploadLoop_ok_third rd env e1 e2 r h1 h2 h3]
  exact ⟨rfl, rfl, rfl⟩

/-- Witness for C3: a concrete run failing twice and succeeding on the
third attempt returns the parsed result after delays of 2000 and 4000 ms. -/
theorem uploadAudio_backoff_schedule_witness :
    (Api.uploadAudio stTok rdGood (.error "unused") envThirdOk).2.1 =
      .ok ⟨true, "uploaded"⟩ ∧
    (Api.uploadAudio stTok rdGood (.error "unused") envThirdOk).2.2.delays =
      [1 * 2000, 2 * 2000] ∧
    (Api.uploadAudio stTok rdGood (.error "unused") envThirdOk).2.2.attemptsMade = 3 :=
  uploadAudio_backoff_schedule stTok rdGood (.error "unused") envThirdOk
    "Network request failed" "Network request failed" ⟨true, "uploaded"⟩
    rfl rfl rfl rfl

/-- C4: when no (truthy) token is held, `uploadAudio` makes exactly one
implicit login call with the fixed fallback credentials before any upload
attempt; a login that throws, or answers with `success` false, aborts the
upload with zero attempts and a returned authorization-error failure
object; when a token is held, no implicit login happens. -/
theorem uploadAudio_implicit_login (st : Api.State) (rd : Api.RecordingData)
    (loginResp : Except String Api.LoginResponse) (env : Nat → Api.AttemptOutcome) :
    (Api.tokenTruthy st.token = false →
      (Api.uploadAudio st rd loginResp env).2.2.loginCalls = 1 ∧
      (∀ msg, loginResp = .error msg →
        Api.uploadAudio st rd loginResp env =
          (st, .ok ⟨false, "Ошибка авторизации: " ++ msg⟩, ⟨1, 0, []⟩)) ∧
      (∀ r, loginResp = .ok r → r.success = false →
        (Api.uploadAudio st rd loginResp env).2.2.attemptsMade = 0 ∧
        (Api.uploadAudio st rd loginResp env).2.1 =
          .ok ⟨false,
            "Ошибка авторизации: Не удалось авторизоваться для загрузки файла"⟩)) ∧
    (Api.tokenTruthy st.token = true →
      (Api.uploadAudio st rd loginResp env).2.2.loginCalls = 0) := by
  constructor
  · intro ht
    refine ⟨?_, ?_, ?_⟩
    · cases loginResp with
      | error msg => simp [Api.uploadAudio, ht, Api.login]
      | ok r =>
          cases hs : r.success <;>
            simp [Api.uploadAudio, ht, Api.login, hs]
    · intro msg h
      subst h
      simp [Api.uploadAudio, ht, Api.login]
    · intro r h hs
      subst h
      constructor <;> simp [Api.uploadAudio, ht, Api.login, hs]
  · intro ht
    simp [Api.uploadAudio, ht]

/-- Witness for C4: with no token held and the implicit login throwing, a
concrete upload aborts with a returned authorization failure, one login
call and zero attempts. -/
theorem uploadAudio_implicit_login_witness :
    Api.uploadAudio ⟨none⟩ rdGood (.error "ECONNREFUSED") envNetFail =
      (⟨none⟩, .ok ⟨false, "Ошибка авторизации: " ++ "ECONNREFUSED"⟩, ⟨1, 0, []⟩) :=
  ((uploadAudio_implicit_login ⟨none⟩ rdGood (.error "ECONNREFUSED") envNetFail).1
    rfl).2.1 "ECONNREFUSED" rfl

/-- Counterexample to C5: in `ApiService.uploadAudio` a status-200 response
whose body is not JSON makes the attempt fail with a parse error rather
than yield a generic success; and in `AudioService.uploadRecording` a
status inside `[200, 300)` other than 200/201 (here 204) is reported as a
failure, not a success. -/
theorem upload_success_parse_cex :
    Api.attemptOnce rdGood (.health true 200 (.response 200 (.notJson "PLAIN OK"))) =
      Except.error "Ошибка парсинга ответа сервера" ∧
    AudioSvc.uploadRecording (.response 204 (.notJson "")) =
      ⟨false, "Ошибка сервера: " ++ toString 204 ++ ". " ++ "Неизвестная ошибка"⟩ :=
  ⟨rfl, rfl⟩

/-- C5 amended: for a status in `[200, 300)`, `ApiService.uploadAudio`
returns the parsed JSON body but treats a non-JSON body as a failed attempt
(a thrown parse error); `AudioService.uploadRecording` treats exactly the
statuses 200 and 201 as success — there a non-JSON body is tolerated with
the same generic success result as a JSON one — and reports every other
status, including others inside `[200, 300)`, as a failure. -/
theorem upload_success_parse_behavior (rd : Api.RecordingData) (status : Nat)
    (huri1 : strEmpty rd.uri = false)
    (huri2 : strStartsWith rd.uri "file://" = true)
    (hs1 : 200 ≤ status) (hs2 : status < 300) :
    (∀ raw parsed,
      Api.attemptOnce rd (.health true 200 (.response status (.json raw parsed))) =
        .ok parsed) ∧
    (∀ raw,
      Api.attemptOnce rd (.health true 200 (.response status (.notJson raw))) =
        .error "Ошибка парсинга ответа сервера") ∧
    (status = 200 ∨ status = 201 → ∀ body,
      AudioSvc.uploadRecording (.response status body) =
        ⟨true, "Запись успешно загружена на сервер"⟩) ∧
    (status ≠ 200 → status ≠ 201 → ∀ body,
      (AudioSvc.uploadRecording (.response status body)).success = false) := by
  have hcond : (decide (200 ≤ status) && decide (status < 300)) = true := by
    simp [hs1, hs2]
  refine ⟨?_, ?_, ?_, ?_⟩
  · intro raw parsed
    simp [Api.attemptOnce, huri1, huri2, hcond]
  · intro raw
    simp [Api.attemptOnce, huri1, huri2, hcond]
  · rintro (h | h) body <;> subst h <;> cases body <;>
      simp [AudioSvc.uploadRecording]
  · intro h200 h201 body
    have hb200 : (status == 200) = false := by simpa using h200
    have hb201 : (status == 201) = false := by simpa using h201
    simp [AudioSvc.uploadRecording, hb200, hb201]

/-- Witness for the amended C5: a concrete status-299 JSON response is
returned parsed by the retry client. -/
theorem upload_success_parse_behavior_witness :
    Api.attemptOnce rdGood
        (.health true 200 (.response 299 (.json "server-json" ⟨true, "uploaded"⟩))) =
      .ok ⟨true, "uploaded"⟩ :=
  (upload_success_parse_behavior rdGood 299 (by decide) (by decide)
    (by decide) (by decide)).1 "server-json" ⟨true, "uploaded"⟩
